import Mathlib

/-!
Verification development for the course-materials RAG chatbot backend.

Part 1 embeds the tool-calling orchestration loop of
`backend/ai_generator.py` (`AIGenerator._execute_tool_loop` and
`AIGenerator.generate_response`). The Anthropic client is modelled as a
deterministic oracle `ModelBehavior : Nat -> Response` giving the response to
the i-th `client.messages.create` call; the loop is embedded as a pure
function that additionally returns a `Trace` recording, for each API call,
the captured `messages` argument and the captured `tools` parameter (or
`none` when the `tools` key was omitted), plus every attempted tool
execution in order. A Python exception escaping the function is modelled by
the output `Option String` being `none`. The `system` parameter of the
API calls is threaded through the Python loop unchanged and never inspected
by it, so it is not recorded in the trace.
-/

/-- Stop reason of a model response (`response.stop_reason` in the Python
code, which compares it against the strings `"end_turn"` and `"tool_use"`;
`otherReason` stands for any other value). -/
inductive StopReason
  | endTurn
  | toolUse
  | otherReason
deriving DecidableEq, Repr

/-- A JSON-like scalar used inside tool inputs (`content_block.input` values). -/
inductive JsonVal
  | str (s : String)
  | num (n : Int)
  | null
deriving DecidableEq, Repr

/-- Keyword arguments of a tool-use request (`content_block.input`). -/
abbrev ToolInput := List (String × JsonVal)

/-- A content block of a model response. A `text` block carries a string
`text` attribute; a `toolUse` block (Python `type == "tool_use"`) carries
`id`, `name` and `input` and has no `text` attribute. -/
inductive ContentBlock
  | text (s : String)
  | toolUse (id : String) (name : String) (input : ToolInput)
deriving DecidableEq, Repr

/-- The string `text` attribute of a block when it has one
(`hasattr(block, "text") and isinstance(block.text, str)` in the Python
extraction loop); `none` for a tool-use block. -/
def ContentBlock.textAttr : ContentBlock → Option String
  | .text s => some s
  | .toolUse _ _ _ => none

/-- A model response: `stop_reason` plus an ordered list of content blocks. -/
structure Response where
  stop_reason : StopReason
  content : List ContentBlock
deriving DecidableEq, Repr

/-- One entry of the combined tool-result message the loop appends
(Python dict with keys `type: "tool_result"`, `tool_use_id`, `content`, and
`is_error: True` on the failure branch only; success entries carry no
`is_error` key, modelled as `is_error = false`). -/
structure ToolResultEntry where
  tool_use_id : String
  content : String
  is_error : Bool
deriving DecidableEq, Repr

/-- Content of one transcript message: the initial user query is a plain
string, an appended assistant turn is a block list, and an appended
tool-result turn is a list of tool-result entries. -/
inductive MessageContent
  | text (s : String)
  | blocks (bs : List ContentBlock)
  | toolResults (rs : List ToolResultEntry)
deriving DecidableEq, Repr

/-- One transcript message (`{"role": ..., "content": ...}`). -/
structure Message where
  role : String
  content : MessageContent
deriving DecidableEq, Repr

/-- The initial user message built by `generate_response`
(`[{"role": "user", "content": query}]`). -/
def userQueryMsg (q : String) : Message := ⟨"user", MessageContent.text q⟩

/-- The assistant message appended in step 4 of the loop
(`{"role": "assistant", "content": response.content}`). -/
def assistantMsg (bs : List ContentBlock) : Message :=
  ⟨"assistant", MessageContent.blocks bs⟩

/-- The combined tool-result message appended in step 6 of the loop
(`{"role": "user", "content": tool_results}`). -/
def toolResultsMsg (rs : List ToolResultEntry) : Message :=
  ⟨"user", MessageContent.toolResults rs⟩

/-- A tool schema as far as the loop is concerned: the loop never inspects
tool definitions, it only tests the `tools` list for truthiness and passes
it through, so the schema is modelled by its name. -/
abbrev ToolSchema := String

/-- The captured arguments of one `client.messages.create` call: the
`messages` list at the time of the call (the Python code passes
`messages.copy()`), and the `tools` parameter, `none` when the `tools`
key was omitted from the call. -/
structure APICall where
  messages : List Message
  tools : Option (List ToolSchema)
deriving DecidableEq, Repr

/-- Execution trace of one run of the loop: every API call with captured
arguments, and every attempted tool execution `(name, input)` in order. -/
structure Trace where
  calls : List APICall
  toolExecs : List (String × ToolInput)
deriving DecidableEq, Repr

/-- The tool manager's `execute_tool(name, **kwargs)`: returns the tool's
text, or `Except.error msg` to model a raised exception with `str(e) = msg`. -/
abbrev ToolManager := String → ToolInput → Except String String

/-- The model oracle: the response returned by the i-th
`client.messages.create` call of the run. -/
abbrev ModelBehavior := Nat → Response

/-- The `tools` parameter actually sent by an API call: the `tools` key is
set only when the `tools` argument is truthy (`if tools:` in Python, so a
`None` or an empty list leads to the key being omitted). -/
def sentTools (tools : Option (List ToolSchema)) : Option (List ToolSchema) :=
  match tools with
  | some ts => if ts.isEmpty then none else some ts
  | none => none

/-- One `client.messages.create` call: appends the captured arguments to the
trace and returns the oracle's response for this call index. -/
def apiCall (model : ModelBehavior) (tr : Trace) (msgs : List Message)
    (tools : Option (List ToolSchema)) : Trace × Response :=
  (⟨tr.calls ++ [⟨msgs, sentTools tools⟩], tr.toolExecs⟩, model tr.calls.length)

/-- Step 5 of the loop body: execute every `tool_use` block in order,
collecting one result entry per requested call, the failure flag
(`tool_execution_failed`), and the attempted executions. A raised exception
becomes an entry `"Error executing tool: <message>"` tagged `is_error`. -/
def runToolCalls (mgr : ToolManager) :
    List ContentBlock → List ToolResultEntry × Bool × List (String × ToolInput)
  | [] => ([], false, [])
  | ContentBlock.text _ :: rest => runToolCalls mgr rest
  | ContentBlock.toolUse id name input :: rest =>
    let tail := runToolCalls mgr rest
    match mgr name input with
    | Except.ok r =>
        (⟨id, r, false⟩ :: tail.1, tail.2.1, (name, input) :: tail.2.2)
    | Except.error e =>
        (⟨id, "Error executing tool: " ++ e, true⟩ :: tail.1, true,
          (name, input) :: tail.2.2)

/-- First content block carrying a string `text` attribute, if any: the scan
`for block in current_response.content: if hasattr(block, "text") ...`. -/
def firstTextBlock : List ContentBlock → Option String
  | [] => none
  | b :: rest =>
    match b.textAttr with
    | some t => some t
    | none => firstTextBlock rest

/-- Final text extraction after the loop: `"No response generated"` when
`current_response` is `None` or its content list is empty (both falsy in
Python), otherwise the first string text block, otherwise the fixed
round-limit fallback message. -/
def extractFinalText (current : Option Response) : String :=
  match current with
  | none => "No response generated"
  | some r =>
    if r.content.isEmpty then "No response generated"
    else
      match firstTextBlock r.content with
      | some t => t
      | none => "Maximum tool usage rounds reached. Please rephrase your question."

/-- The `while round_counter < max_rounds` loop of `_execute_tool_loop`,
with `fuel = max_rounds - round_counter` and `cur` the current value of
`current_response`. A `break` leaves `round_counter < max_rounds`, so the
post-loop final call (guarded by `round_counter >= max_rounds`) happens only
in the fuel-exhausted case; break branches go straight to text extraction.
On the tool-failure branch the Python code returns
`final_response.content[0].text`, which raises (output `none`) when the
content list is empty or its first block has no string `text` attribute. -/
def toolLoopGo (model : ModelBehavior) (tools : Option (List ToolSchema))
    (toolManager : Option ToolManager) :
    Nat → List Message → Option Response → Trace → Trace × Option String
  | 0, msgs, cur, tr =>
    match cur with
    | some r =>
      if r.stop_reason = StopReason.toolUse then
        let step := apiCall model tr msgs none
        (step.1, some (extractFinalText (some step.2)))
      else (tr, some (extractFinalText (some r)))
    | none => (tr, some (extractFinalText none))
  | fuel + 1, msgs, _, tr =>
    let step := apiCall model tr msgs tools
    let tr1 := step.1
    let resp := step.2
    if resp.stop_reason = StopReason.endTurn then
      (tr1, some (extractFinalText (some resp)))
    else if resp.stop_reason ≠ StopReason.toolUse then
      (tr1, some (extractFinalText (some resp)))
    else
      match toolManager with
      | none => (tr1, some (extractFinalText (some resp)))
      | some mgr =>
        let msgs1 := msgs ++ [assistantMsg resp.content]
        let exec := runToolCalls mgr resp.content
        let tr2 : Trace := ⟨tr1.calls, tr1.toolExecs ++ exec.2.2⟩
        let msgs2 :=
          if exec.1.isEmpty then msgs1 else msgs1 ++ [toolResultsMsg exec.1]
        if exec.2.1 then
          let fin := apiCall model tr2 msgs2 none
          match fin.2.content.head? with
          | none => (fin.1, none)
          | some b =>
            match b.textAttr with
            | some t => (fin.1, some t)
            | none => (fin.1, none)
        else toolLoopGo model tools toolManager fuel msgs2 (some resp) tr2

/-- `AIGenerator._execute_tool_loop(messages, system_content, max_rounds,
tools, tool_manager)`, started on a copy of the caller's message list with
`round_counter = 0` and `current_response = None`. -/
def executeToolLoop (model : ModelBehavior) (messages : List Message)
    (maxRounds : Nat) (tools : Option (List ToolSchema))
    (toolManager : Option ToolManager) : Trace × Option String :=
  toolLoopGo model tools toolManager maxRounds messages none ⟨[], []⟩

/-- Modelled from the spec: `config.py` is not under `src/`; the
orchestration-loop contract fixes the round bound as "bounded, default 2"
(`config.MAX_TOOL_ROUNDS`). -/
def MAX_TOOL_ROUNDS : Nat := 2

/-- `AIGenerator.generate_response(query, conversation_history, tools,
tool_manager)`: seeds the transcript with the user query and runs the loop
with the configured round bound. The system content (static prompt plus
optional history) is passed through to the API calls unchanged and never
branched on, so it is not part of the model. -/
def generateResponse (model : ModelBehavior) (query : String)
    (tools : Option (List ToolSchema)) (toolManager : Option ToolManager) :
    Trace × Option String :=
  executeToolLoop model [userQueryMsg query] MAX_TOOL_ROUNDS tools toolManager

/-- A model that requests the same tool call in every round, as in
`test_max_rounds_termination`. -/
def cModelAllTools : ModelBehavior := fun _ =>
  ⟨StopReason.toolUse,
    [ContentBlock.toolUse "toolu_infinite" "search_course_content"
      [("query", JsonVal.str "test")]]⟩

/-- A tool manager whose every execution succeeds with the text `"Result"`. -/
def cMgrOk : ToolManager := fun _ _ => Except.ok "Result"

/-- A model that requests one tool call in each of the two rounds and
answers the final no-tools call with an empty content list, every response
having stop reason `tool_use`. -/
def cModelFinalEmpty : ModelBehavior := fun i =>
  if i ≤ 1 then
    ⟨StopReason.toolUse,
      [ContentBlock.toolUse "toolu_1" "search_course_content"
        [("query", JsonVal.str "test")]]⟩
  else ⟨StopReason.toolUse, []⟩

/-- The round of `test_tool_execution_error_handling` extended to two
requested calls (Scenario D): one succeeding and one throwing tool. -/
def cBlocksD : List ContentBlock :=
  [ContentBlock.toolUse "toolu_ok" "good_tool" [("query", JsonVal.str "a")],
   ContentBlock.toolUse "toolu_err" "bad_tool" [("query", JsonVal.str "b")]]

/-- A model that requests the two Scenario D tool calls and then explains
the failure. -/
def cModelD : ModelBehavior := fun i =>
  if i = 0 then ⟨StopReason.toolUse, cBlocksD⟩
  else ⟨StopReason.endTurn, [ContentBlock.text "I encountered an error."]⟩

/-- A tool manager on which `bad_tool` raises and every other tool
succeeds. -/
def cMgrD : ToolManager := fun name _ =>
  if name = "bad_tool" then Except.error "DB connection failed"
  else Except.ok "OK"

/-- A model whose first turn requests a tool and also carries a text
block. -/
def cModelRaw : ModelBehavior := fun _ =>
  ⟨StopReason.toolUse,
    [ContentBlock.text "Raw turn",
     ContentBlock.toolUse "toolu_123" "search_course_content" []]⟩

/-- A model that requests one tool call and, on any later call, answers
with an empty content list. -/
def cModelFollowEmpty : ModelBehavior := fun i =>
  if i = 0 then
    ⟨StopReason.toolUse,
      [ContentBlock.toolUse "toolu_err" "search_course_content"
        [("query", JsonVal.str "test")]]⟩
  else ⟨StopReason.endTurn, []⟩

/-- A tool manager whose every execution raises. -/
def cMgrFail : ToolManager := fun _ _ => Except.error "DB connection failed"

/-!
Part 2 embeds the retrieval/filtering engine. The files `vector_store.py`,
`search_tools.py` and `rag_system.py` of this repository are not under
`src/` — only their test suites are — so the definitions below are modelled
from the spec (sections 3, 4.1, 4.2, 4.4 and 6), with the underlying
Chroma collections abstracted as function fields of a `VectorStore`
record. The content-collection queries actually performed by a `search`
are returned alongside its result so that "no index query performed" is
observable.
-/

/-- Metadata of one retrieved chunk: at minimum the owning course title and
an optional lesson number (spec section 3, `SearchResults`). -/
structure ChunkMetadata where
  course_title : String
  lesson_number : Option Int
deriving DecidableEq, Repr

/-- Modelled from the spec: the `SearchResults` value of the missing
`vector_store.py` — parallel sequences of documents, metadata and
distances plus an optional error message. The plain record mirrors the
Python dataclass; the length invariant is a property of the values the
module produces, proved below, not of the type. -/
structure SearchResults where
  documents : List String
  metadata : List ChunkMetadata
  distances : List Float
  error : Option String
deriving Repr

/-- `SearchResults.is_empty`: a result set is empty iff its document
sequence has zero length, independent of the error field. -/
def SearchResults.is_empty (r : SearchResults) : Bool :=
  r.documents.length == 0

/-- Modelled from the spec: the `SearchResults.empty(error_msg)` classmethod
of the missing `vector_store.py` — an error result with all three
sequences empty. -/
def SearchResults.empty (msg : String) : SearchResults :=
  ⟨[], [], [], some msg⟩

/-- A raw Chroma query result: nested lists, one inner list per query text
(the store always queries with a single text). -/
structure ChromaQueryResult where
  documents : List (List String)
  metadatas : List (List ChunkMetadata)
  distances : List (List Float)

/-- Modelled from the spec: the `SearchResults.from_chroma` constructor of
the missing `vector_store.py` — takes the first inner list of each field
(empty when absent) and no error. -/
def SearchResults.from_chroma (c : ChromaQueryResult) : SearchResults :=
  ⟨c.documents.headD [], c.metadatas.headD [], c.distances.headD [], none⟩

/-- One equality predicate of a content filter (`{"course_title": t}` or
`{"lesson_number": n}`). -/
inductive FilterClause
  | course_title (t : String)
  | lesson_number (n : Int)
deriving DecidableEq, Repr

/-- A content filter expression: a single equality clause, or an `$and` of
a list of clauses. -/
inductive FilterExpr
  | clause (c : FilterClause)
  | andList (cs : List FilterClause)
deriving DecidableEq, Repr

/-- Modelled from the spec: `_build_filter(course_title, lesson_number)` of
the missing `vector_store.py` — `None` if both are absent, a single
equality predicate if exactly one is present, a conjunction of both if both
are present. -/
def buildFilter (courseTitle : Option String) (lessonNumber : Option Int) :
    Option FilterExpr :=
  match courseTitle, lessonNumber with
  | none, none => none
  | some t, none => some (FilterExpr.clause (FilterClause.course_title t))
  | none, some n => some (FilterExpr.clause (FilterClause.lesson_number n))
  | some t, some n =>
    some (FilterExpr.andList
      [FilterClause.course_title t, FilterClause.lesson_number n])

/-- The captured arguments of one query against the content collection
(`course_content.query(query_texts=[...], n_results=..., where=...)`). -/
structure ContentQueryCall where
  query_text : String
  n_results : Nat
  whereFilter : Option FilterExpr
deriving DecidableEq, Repr

/-- Modelled from the spec: the state and collaborators of the missing
the missing `vector_store.py` `VectorStore` record — a fuzzy name resolution over the
metadata collection, the content-collection query (whose raised exceptions
are `Except.error msg` with `str(e) = msg`), and the configured maximum
result count. -/
structure VectorStore where
  resolveCourseName : String → Option String
  contentQuery : String → Nat → Option FilterExpr → Except String ChromaQueryResult
  max_results : Nat

/-- The filtered content query of `search` after optional name resolution:
builds the filter, queries with `limit` (default: configured max), converts
a raised exception into a `"Search error: <message>"` result, and reports
the performed query. -/
def VectorStore.runQuery (vs : VectorStore) (query : String)
    (courseTitle : Option String) (lessonNumber : Option Int)
    (limit : Option Nat) : SearchResults × List ContentQueryCall :=
  let n := limit.getD vs.max_results
  let w := buildFilter courseTitle lessonNumber
  match vs.contentQuery query n w with
  | Except.ok res => (SearchResults.from_chroma res, [⟨query, n, w⟩])
  | Except.error e => (SearchResults.empty ("Search error: " ++ e), [⟨query, n, w⟩])

/-- Modelled from the spec: `VectorStore.search(query, course_name,
lesson_number, limit)` of the missing `vector_store.py` — resolves the
course name first when given and short-circuits to an error result with no
content query when resolution fails; the second component lists the
content-collection queries performed. -/
def VectorStore.search (vs : VectorStore) (query : String)
    (courseName : Option String) (lessonNumber : Option Int)
    (limit : Option Nat) : SearchResults × List ContentQueryCall :=
  match courseName with
  | some cn =>
    match vs.resolveCourseName cn with
    | none =>
      (SearchResults.empty ("No course found matching \x27" ++ cn ++ "\x27"), [])
    | some title => vs.runQuery query (some title) lessonNumber limit
  | none => vs.runQuery query none lessonNumber limit

/-- A display-oriented source record `{text, link}` (spec section 3). -/
structure Source where
  text : String
  link : Option String
deriving DecidableEq, Repr

/-- The store interface the content-search tool consumes: `search` (already
resolved to its `SearchResults`) and `get_lesson_link`. -/
structure ToolStore where
  searchFn : String → Option String → Option Int → SearchResults
  getLessonLink : String → Int → Option String

/-- Modelled from the spec: the context-sensitive empty-result message of
the missing `search_tools.py` — `"No relevant content found"`, an optional
`" in course \x27<name>\x27"` suffix, an optional `" in lesson <n>"` suffix, in
that order, terminated by a period. -/
def emptyMessage (courseName : Option String) (lessonNumber : Option Int) :
    String :=
  "No relevant content found" ++
    (match courseName with
      | some c => " in course \x27" ++ c ++ "\x27"
      | none => "") ++
    (match lessonNumber with
      | some n => " in lesson " ++ toString n
      | none => "") ++ "."

/-- The block header of one formatted result:
`"[<course_title> - Lesson <n>]"`, the lesson segment omitted entirely
when the chunk has no lesson number. -/
def formatHeader (m : ChunkMetadata) : String :=
  match m.lesson_number with
  | some n => "[" ++ m.course_title ++ " - Lesson " ++ toString n ++ "]"
  | none => "[" ++ m.course_title ++ "]"

/-- The source record derived from one result's metadata: text
`"<course_title> - Lesson <n>"` (just the title when no lesson number) and
the lesson link resolved via the store (None-safe). -/
def sourceOf (store : ToolStore) (m : ChunkMetadata) : Source :=
  match m.lesson_number with
  | some n =>
    ⟨m.course_title ++ " - Lesson " ++ toString n, store.getLessonLink m.course_title n⟩
  | none => ⟨m.course_title, none⟩

/-- Modelled from the spec: the non-empty formatting step of the missing
`search_tools.py` — one block per (document, metadata) pair, header then
document text, blocks joined with blank-line separation, plus the source
list built per result in order. -/
def formatResults (store : ToolStore) (r : SearchResults) :
    String × List Source :=
  (String.intercalate "\n\n"
    (List.zipWith (fun d m => formatHeader m ++ "\n" ++ d) r.documents r.metadata),
   (r.documents.zip r.metadata).map (fun p => sourceOf store p.2))

/-- Modelled from the spec: `CourseSearchTool.execute(query, course_name,
lesson_number)` of the missing `search_tools.py`. Returns the rendered text
together with the tool's tracked source list after the call (the Python
tool mutates `self.last_sources`): an error result returns the error string
verbatim, an empty result returns the context-sensitive message — both
leaving the tracked sources untouched — and a non-empty result returns the
formatted blocks and overwrites the tracked sources. -/
def CourseSearchTool.execute (store : ToolStore) (lastSources : List Source)
    (query : String) (courseName : Option String) (lessonNumber : Option Int) :
    String × List Source :=
  let results := store.searchFn query courseName lessonNumber
  match results.error with
  | some e => (e, lastSources)
  | none =>
    if results.documents.isEmpty then
      (emptyMessage courseName lessonNumber, lastSources)
    else formatResults store results

/-- The registry's tracked-source state: one source list per registered
tool, in registration order. -/
structure ToolManagerState where
  toolSources : List (List Source)
deriving DecidableEq, Repr

/-- Modelled from the spec: the registry's `get_last_sources` — the
concatenation of each registered tool's currently tracked sources, in
registration order. -/
def getLastSources (m : ToolManagerState) : List Source :=
  m.toolSources.flatten

/-- Modelled from the spec: the registry's `reset_sources` — every
registered tool's tracked sources reset to empty. -/
def resetSources (m : ToolManagerState) : ToolManagerState :=
  ⟨m.toolSources.map (fun _ => [])⟩

/-- Modelled from the spec: the source-handling step of the missing
`rag_system.py` method `query` — after the generator produced `answer`, the
facade returns `(answer, collected sources)` and clears every tool's
tracked sources immediately after retrieval. -/
def ragQuery (answer : String) (m : ToolManagerState) :
    (String × List Source) × ToolManagerState :=
  ((answer, getLastSources m), resetSources m)

/-- The length invariant of the spec's data model: the three parallel
sequences have equal length, and an error result carries no documents. -/
def SearchResults.Invariant (r : SearchResults) : Prop :=
  r.documents.length = r.metadata.length ∧
  r.metadata.length = r.distances.length ∧
  (r.error.isSome = true → r.documents.length = 0)

/-- A store on which no course name resolves and the content query raises. -/
def cStoreRaise : VectorStore :=
  ⟨fun _ => none, fun _ _ _ => Except.error "Database error", 5⟩

/-- A length-consistent raw result with three documents, as in
`test_from_chroma_with_results`. -/
def cChroma3 : ChromaQueryResult :=
  ⟨[["doc1", "doc2", "doc3"]],
   [[⟨"Test", some 0⟩, ⟨"Test", some 1⟩, ⟨"Test", some 2⟩]],
   [[0.1, 0.2, 0.3]]⟩

/-- A store whose every search yields a non-error, zero-document result. -/
def cStoreEmpty : ToolStore :=
  ⟨fun _ _ _ => ⟨[], [], [], none⟩, fun _ _ => none⟩

/-- A store whose every search yields an error result. -/
def cStoreSearchErr : ToolStore :=
  ⟨fun _ _ _ => SearchResults.empty "Search error: Database connection failed",
   fun _ _ => none⟩

/-- A previously tracked source list left over from an earlier execution. -/
def cOldSources : List Source := [⟨"Old Course - Lesson 1", some "http old"⟩]

/-- A store returning two documents with lesson metadata, as in
`test_source_tracking_multiple_results`. -/
def cStoreDocs : ToolStore :=
  ⟨fun _ _ _ =>
    ⟨["Content 1", "Content 2"],
     [⟨"Course A", some 1⟩, ⟨"Course B", some 2⟩],
     [0.1, 0.2], none⟩,
   fun t _ => if t = "Course A" then some "http a1" else some "http b2"⟩

/-!
Helper lemmas about the loop embedding, shared by several claims.
-/

/-- When the response has a content block with a string text attribute, the
final extraction returns the first such text. -/
theorem extractFinalText_of_firstText (r : Response) (t : String)
    (h : firstTextBlock r.content = some t) :
    extractFinalText (some r) = t := by
  have hne : r.content ≠ [] := by
    intro hnil
    rw [hnil] at h
    simp [firstTextBlock] at h
  simp only [extractFinalText, List.isEmpty_eq_true]
  simp [hne, h]

/-- For a response with nonempty content, the final extraction is the first
string text block when one exists, and the fixed round-limit fallback
message otherwise. -/
theorem extractFinalText_getD (r : Response) (h : r.content ≠ []) :
    extractFinalText (some r) =
      (firstTextBlock r.content).getD
        "Maximum tool usage rounds reached. Please rephrase your question." := by
  simp only [extractFinalText, List.isEmpty_eq_true]
  rcases hf : firstTextBlock r.content with _ | t <;> simp [h, hf]

/-- Each run of the `while` loop body adds at most `fuel + 1` API calls:
one per remaining round, plus at most one final no-tools call. -/
theorem toolLoopGo_calls_length_le (model : ModelBehavior)
    (tools : Option (List ToolSchema)) (mgrO : Option ToolManager) :
    ∀ (fuel : Nat) (msgs : List Message) (cur : Option Response) (tr : Trace),
      (toolLoopGo model tools mgrO fuel msgs cur tr).1.calls.length ≤
        tr.calls.length + fuel + 1 := by
  intro fuel
  induction fuel with
  | zero =>
    intro msgs cur tr
    rcases cur with _ | r
    · simp [toolLoopGo]
    · by_cases h : r.stop_reason = StopReason.toolUse <;>
        simp [toolLoopGo, apiCall, h]
  | succ n ih =>
    intro msgs cur tr
    simp only [toolLoopGo, apiCall]
    split
    · simp
    · split
      · simp
      · split
        · simp
        · split
          · split <;> (try split) <;> simp
          · refine le_trans (ih _ _ _) ?_
            simp
            omega

/-- The orchestration loop makes at most `max_rounds + 1` API calls, for
every model behavior, initial transcript, tool list and tool manager. -/
theorem executeToolLoop_calls_length_le (model : ModelBehavior)
    (messages : List Message) (maxRounds : Nat)
    (tools : Option (List ToolSchema)) (mgrO : Option ToolManager) :
    (executeToolLoop model messages maxRounds tools mgrO).1.calls.length ≤
      maxRounds + 1 := by
  have h := toolLoopGo_calls_length_le model tools mgrO maxRounds messages none ⟨[], []⟩
  simpa [executeToolLoop] using h

/-- The tool-result entries produced by one round: one entry per `tool_use`
block, in the model's request order, each carrying its originating id; a
successful call contributes the tool's text, a failed one the tagged error
payload built from the exception message. -/
theorem runToolCalls_results_eq (mgr : ToolManager) :
    ∀ bs : List ContentBlock,
      (runToolCalls mgr bs).1 = bs.filterMap (fun b =>
        match b with
        | ContentBlock.text _ => none
        | ContentBlock.toolUse id name input =>
          some (match mgr name input with
            | Except.ok r => ⟨id, r, false⟩
            | Except.error e => ⟨id, "Error executing tool: " ++ e, true⟩)) := by
  intro bs
  induction bs with
  | nil => simp [runToolCalls]
  | cons b rest ih =>
    rcases b with s | ⟨id, name, input⟩
    · simpa [runToolCalls] using ih
    · rcases h : mgr name input with r | e <;>
        simp [runToolCalls, h, ih]

/-- The attempted tool executions of one round: every `tool_use` block is
executed, in request order, whether or not some execution fails. -/
theorem runToolCalls_execs_eq (mgr : ToolManager) :
    ∀ bs : List ContentBlock,
      (runToolCalls mgr bs).2.2 = bs.filterMap (fun b =>
        match b with
        | ContentBlock.text _ => none
        | ContentBlock.toolUse _ name input => some (name, input)) := by
  intro bs
  induction bs with
  | nil => simp [runToolCalls]
  | cons b rest ih =>
    rcases b with s | ⟨id, name, input⟩
    · simpa [runToolCalls] using ih
    · rcases h : mgr name input with r | e <;>
        simp [runToolCalls, h, ih]

/-- When some tool execution failed, the round produced at least one
tool-result entry (so the combined tool-result message is appended). -/
theorem runToolCalls_failed_ne_nil (mgr : ToolManager) :
    ∀ bs : List ContentBlock,
      (runToolCalls mgr bs).2.1 = true → (runToolCalls mgr bs).1 ≠ [] := by
  intro bs
  induction bs with
  | nil => simp [runToolCalls]
  | cons b rest ih =>
    rcases b with s | ⟨id, name, input⟩
    · simpa [runToolCalls] using ih
    · rcases h : mgr name input with r | e <;> simp [runToolCalls, h]

/-- Trace of a run in which the model requests one successfully executed
tool call in each of the two configured rounds and then requests a tool
again: three API calls with transcript snapshots of one, three and five
messages, the first two carrying the tool schemas and the last one without
the `tools` key, two tool executions, and the returned text extracted from
the response to the final call. -/
theorem twoToolRounds_trace (model : ModelBehavior) (ts : List ToolSchema)
    (mgr : ToolManager) (q i0 n0 i1 n1 : String) (p0 p1 : ToolInput)
    (r0 r1 : String)
    (hts : ts.isEmpty = false)
    (h0 : model 0 = ⟨StopReason.toolUse, [ContentBlock.toolUse i0 n0 p0]⟩)
    (h1 : model 1 = ⟨StopReason.toolUse, [ContentBlock.toolUse i1 n1 p1]⟩)
    (hm0 : mgr n0 p0 = Except.ok r0) (hm1 : mgr n1 p1 = Except.ok r1) :
    generateResponse model q (some ts) (some mgr) =
      (⟨[⟨[userQueryMsg q], some ts⟩,
         ⟨[userQueryMsg q, assistantMsg [ContentBlock.toolUse i0 n0 p0],
           toolResultsMsg [⟨i0, r0, false⟩]], some ts⟩,
         ⟨[userQueryMsg q, assistantMsg [ContentBlock.toolUse i0 n0 p0],
           toolResultsMsg [⟨i0, r0, false⟩],
           assistantMsg [ContentBlock.toolUse i1 n1 p1],
           toolResultsMsg [⟨i1, r1, false⟩]], none⟩],
        [(n0, p0), (n1, p1)]⟩,
       some (extractFinalText (some (model 2)))) := by
  simp only [generateResponse, executeToolLoop, MAX_TOOL_ROUNDS, toolLoopGo,
    apiCall, sentTools, runToolCalls]
  simp [h0, h1, hm0, hm1, hts, toolLoopGo, apiCall, sentTools, runToolCalls]

/-!
Claim theorems about the orchestration loop (`ai_generator.py`).
-/

/-- C1 (amended): for every model behavior the orchestration loop makes at
most `max_rounds + 1` model calls; with `max_rounds = 2` and a model that
requests a successfully executed tool call in every round (every response
has stop reason `tool_use`), exactly 3 model calls and exactly 2 tool
executions occur, the third model call omits the `tools` parameter, and the
returned string is the extraction of the final call's response: its first
string text block when one exists, the fixed fallback message when its
content is nonempty but no block carries a string text attribute, and
`"No response generated"` when its content list is empty. -/
theorem claim_C1_round_bound :
    (∀ (model : ModelBehavior) (messages : List Message) (maxRounds : Nat)
        (tools : Option (List ToolSchema)) (mgrO : Option ToolManager),
      (executeToolLoop model messages maxRounds tools mgrO).1.calls.length ≤
        maxRounds + 1)
    ∧ (∀ (model : ModelBehavior) (ts : List ToolSchema) (mgr : ToolManager)
        (q i0 n0 i1 n1 : String) (p0 p1 : ToolInput) (r0 r1 : String),
        ts ≠ [] →
        (∀ i, (model i).stop_reason = StopReason.toolUse) →
        model 0 = ⟨StopReason.toolUse, [ContentBlock.toolUse i0 n0 p0]⟩ →
        model 1 = ⟨StopReason.toolUse, [ContentBlock.toolUse i1 n1 p1]⟩ →
        mgr n0 p0 = Except.ok r0 →
        mgr n1 p1 = Except.ok r1 →
        (generateResponse model q (some ts) (some mgr)).1.calls.length = 3 ∧
        (generateResponse model q (some ts) (some mgr)).1.toolExecs.length = 2 ∧
        (generateResponse model q (some ts) (some mgr)).1.calls.map APICall.tools
          = [some ts, some ts, none] ∧
        (generateResponse model q (some ts) (some mgr)).2 =
          some (extractFinalText (some (model 2))) ∧
        ((model 2).content ≠ [] →
          (generateResponse model q (some ts) (some mgr)).2 =
            some ((firstTextBlock (model 2).content).getD
              "Maximum tool usage rounds reached. Please rephrase your question.")) ∧
        ((model 2).content = [] →
          (generateResponse model q (some ts) (some mgr)).2 =
            some "No response generated")) := by
  constructor
  · exact executeToolLoop_calls_length_le
  · intro model ts mgr q i0 n0 i1 n1 p0 p1 r0 r1 hts _ h0 h1 hm0 hm1
    have hts' : ts.isEmpty = false := by
      simp [List.isEmpty_eq_true, hts]
    rw [twoToolRounds_trace model ts mgr q i0 n0 i1 n1 p0 p1 r0 r1 hts' h0 h1 hm0 hm1]
    refine ⟨rfl, rfl, rfl, rfl, ?_, ?_⟩
    · intro h2
      rw [extractFinalText_getD _ h2]
    · intro h2
      simp [extractFinalText, h2]

/-- Witness for C1 at the concrete inputs of `test_max_rounds_termination`. -/
theorem claim_C1_round_bound_witness :
    (generateResponse cModelAllTools "test query"
      (some ["search_course_content"]) (some cMgrOk)).1.calls.length = 3 ∧
    (generateResponse cModelAllTools "test query"
      (some ["search_course_content"]) (some cMgrOk)).1.toolExecs.length = 2 ∧
    (generateResponse cModelAllTools "test query"
      (some ["search_course_content"]) (some cMgrOk)).1.calls.map APICall.tools
      = [some ["search_course_content"], some ["search_course_content"], none] ∧
    (generateResponse cModelAllTools "test query"
      (some ["search_course_content"]) (some cMgrOk)).2 =
      some "Maximum tool usage rounds reached. Please rephrase your question." := by
  have h := claim_C1_round_bound.2 cModelAllTools ["search_course_content"] cMgrOk
    "test query" "toolu_infinite" "search_course_content" "toolu_infinite"
    "search_course_content" [("query", JsonVal.str "test")]
    [("query", JsonVal.str "test")] "Result" "Result"
    (by decide) (fun i => rfl) rfl rfl rfl rfl
  have h5 := h.2.2.2.2.1 (by decide)
  exact ⟨h.1, h.2.1, h.2.2.1,
    by simpa [cModelAllTools, firstTextBlock, ContentBlock.textAttr] using h5⟩

/-- C1 counterexample: a model meeting every Scenario C hypothesis — each
response has stop reason `tool_use` and each of the two rounds requests one
successfully executed tool call — whose final no-tools call answers with an
empty content list, an instance of "no content block carries a string text
attribute". The loop returns `"No response generated"`, which is neither a
text of the final call (it has none) nor the fixed fallback message, so the
dichotomy the claim states for the returned string fails there. -/
theorem claim_C1_counterexample :
    (∀ i, (cModelFinalEmpty i).stop_reason = StopReason.toolUse) ∧
    (cModelFinalEmpty 2).content = [] ∧
    firstTextBlock (cModelFinalEmpty 2).content = none ∧
    (generateResponse cModelFinalEmpty "test query"
      (some ["search_course_content"]) (some cMgrOk)).1.calls.length = 3 ∧
    (generateResponse cModelFinalEmpty "test query"
      (some ["search_course_content"]) (some cMgrOk)).1.toolExecs.length = 2 ∧
    (generateResponse cModelFinalEmpty "test query"
      (some ["search_course_content"]) (some cMgrOk)).2 =
      some "No response generated" ∧
    "No response generated" ≠
      "Maximum tool usage rounds reached. Please rephrase your question." := by
  refine ⟨?_, rfl, rfl, rfl, rfl, rfl, by decide⟩
  intro i
  unfold cModelFinalEmpty
  split <;> rfl

/-- C2: in any round in which at least one requested tool call raises, the
loop appends a single combined tool-result message with one entry per
requested call in request order — a successful entry carrying the tool's
text, a failed entry carrying `"Error executing tool: <message>"` with
`is_error` set, each entry carrying its originating tool-use id — then
skips all remaining rounds (any fuel) and makes exactly one additional
model call with no tools offered, returning that call's text. Stated over
`toolLoopGo`, whose state `(msgs, tr)` at positive fuel is exactly the
loop's state at the start of an arbitrary round. -/
theorem claim_C2_tool_failure_path :
    (∀ (mgr : ToolManager) (bs : List ContentBlock),
      (runToolCalls mgr bs).1 = bs.filterMap (fun b =>
        match b with
        | ContentBlock.text _ => none
        | ContentBlock.toolUse id name input =>
          some (match mgr name input with
            | Except.ok r => ⟨id, r, false⟩
            | Except.error e => ⟨id, "Error executing tool: " ++ e, true⟩)))
    ∧ (∀ (model : ModelBehavior) (tools : Option (List ToolSchema))
        (mgr : ToolManager) (fuel : Nat) (msgs : List Message)
        (cur : Option Response) (tr : Trace) (bs : List ContentBlock)
        (t : String),
        model tr.calls.length = ⟨StopReason.toolUse, bs⟩ →
        (runToolCalls mgr bs).2.1 = true →
        (model (tr.calls.length + 1)).content.head?.bind ContentBlock.textAttr
          = some t →
        toolLoopGo model tools (some mgr) (fuel + 1) msgs cur tr =
          (⟨tr.calls ++
              [⟨msgs, sentTools tools⟩,
               ⟨msgs ++ [assistantMsg bs,
                  toolResultsMsg (runToolCalls mgr bs).1], none⟩],
            tr.toolExecs ++ (runToolCalls mgr bs).2.2⟩,
           some t)) := by
  constructor
  · exact runToolCalls_results_eq
  · intro model tools mgr fuel msgs cur tr bs t hresp hfail hnext
    have hne : (runToolCalls mgr bs).1 ≠ [] :=
      runToolCalls_failed_ne_nil mgr bs hfail
    have hne' : (runToolCalls mgr bs).1.isEmpty = false := by
      simp [List.isEmpty_eq_true, hne]
    rw [Option.bind_eq_some] at hnext
    obtain ⟨b, hh, hb⟩ := hnext
    simp only [toolLoopGo, apiCall, hresp]
    simp only [List.length_append, List.length_cons, List.length_nil]
    rw [hh]
    simp [hfail, hne', hb, sentTools]

/-- Witness for C2 at Scenario D: the combined message holds one success
entry and one error-tagged entry matched to the originating ids, and
exactly one further no-tools model call is made even though two more
rounds of fuel remain. -/
theorem claim_C2_tool_failure_path_witness :
    toolLoopGo cModelD (some ["good_tool", "bad_tool"]) (some cMgrD) 3
      [userQueryMsg "q"] none ⟨[], []⟩ =
      (⟨[⟨[userQueryMsg "q"], some ["good_tool", "bad_tool"]⟩,
         ⟨[userQueryMsg "q", assistantMsg cBlocksD,
           toolResultsMsg
             [⟨"toolu_ok", "OK", false⟩,
              ⟨"toolu_err", "Error executing tool: DB connection failed", true⟩]],
          none⟩],
        [("good_tool", [("query", JsonVal.str "a")]),
         ("bad_tool", [("query", JsonVal.str "b")])]⟩,
       some "I encountered an error.") := by
  have h := claim_C2_tool_failure_path.2 cModelD (some ["good_tool", "bad_tool"])
    cMgrD 2 [userQueryMsg "q"] none ⟨[], []⟩ cBlocksD "I encountered an error."
    rfl rfl rfl
  exact h

/-- C3: when the model's first response has stop reason `tool_use` but no
tool manager was supplied, `generate_response` stops after that single
model call — no tool execution and no further model call — and its result
is extracted from that raw first model turn; in particular, when that turn
carries a string text block, that text is returned. -/
theorem claim_C3_no_tool_manager (model : ModelBehavior) (q : String)
    (tools : Option (List ToolSchema))
    (h0 : (model 0).stop_reason = StopReason.toolUse) :
    (generateResponse model q tools none).1.calls.length = 1 ∧
    (generateResponse model q tools none).1.toolExecs = [] ∧
    (generateResponse model q tools none).2 =
      some (extractFinalText (some (model 0))) ∧
    ∀ t, firstTextBlock (model 0).content = some t →
      (generateResponse model q tools none).2 = some t := by
  have key : generateResponse model q tools none =
      (⟨[⟨[userQueryMsg q], sentTools tools⟩], []⟩,
       some (extractFinalText (some (model 0)))) := by
    simp only [generateResponse, executeToolLoop, MAX_TOOL_ROUNDS, toolLoopGo,
      apiCall]
    simp [h0]
  rw [key]
  refine ⟨rfl, rfl, rfl, ?_⟩
  intro t ht
  rw [extractFinalText_of_firstText _ _ ht]

/-- Witness for C3: with no tool manager, a single model call occurs and
the raw first turn supplies the returned text, both for a turn with a text
block and for one without. -/
theorem claim_C3_no_tool_manager_witness :
    (generateResponse cModelRaw "test" (some ["test_tool"]) none).1.calls.length
      = 1 ∧
    (generateResponse cModelRaw "test" (some ["test_tool"]) none).1.toolExecs
      = [] ∧
    (generateResponse cModelRaw "test" (some ["test_tool"]) none).2
      = some "Raw turn" ∧
    (generateResponse cModelAllTools "test" (some ["test_tool"]) none).1.calls.length
      = 1 := by
  have hA := claim_C3_no_tool_manager cModelRaw "test" (some ["test_tool"]) rfl
  have hB := claim_C3_no_tool_manager cModelAllTools "test" (some ["test_tool"]) rfl
  exact ⟨hA.1, hA.2.1, hA.2.2.2 "Raw turn" rfl, hB.1⟩

/-- C9: every model call receives its own snapshot of the transcript — in a
two-round tool run the three captured message lists are exactly the one,
three and five messages (user, then alternating assistant/user pairs) that
existed at the time of each call, the earlier snapshots unaffected by the
messages appended in later rounds; the caller's list itself is never
changed (the loop starts from `messages.copy()` and each call receives
`messages.copy()`, which the immutable embedding makes intrinsic). -/
theorem claim_C9_transcript_snapshots (model : ModelBehavior)
    (ts : List ToolSchema) (mgr : ToolManager) (q i0 n0 i1 n1 : String)
    (p0 p1 : ToolInput) (r0 r1 : String)
    (hts : ts ≠ [])
    (h0 : model 0 = ⟨StopReason.toolUse, [ContentBlock.toolUse i0 n0 p0]⟩)
    (h1 : model 1 = ⟨StopReason.toolUse, [ContentBlock.toolUse i1 n1 p1]⟩)
    (hm0 : mgr n0 p0 = Except.ok r0) (hm1 : mgr n1 p1 = Except.ok r1) :
    (generateResponse model q (some ts) (some mgr)).1.calls.map
        (fun c => c.messages) =
      [[userQueryMsg q],
       [userQueryMsg q, assistantMsg [ContentBlock.toolUse i0 n0 p0],
        toolResultsMsg [⟨i0, r0, false⟩]],
       [userQueryMsg q, assistantMsg [ContentBlock.toolUse i0 n0 p0],
        toolResultsMsg [⟨i0, r0, false⟩],
        assistantMsg [ContentBlock.toolUse i1 n1 p1],
        toolResultsMsg [⟨i1, r1, false⟩]]] ∧
    (generateResponse model q (some ts) (some mgr)).1.calls.map
        (fun c => c.messages.length) = [1, 3, 5] ∧
    (generateResponse model q (some ts) (some mgr)).1.calls.map
        (fun c => c.messages.map Message.role) =
      [["user"],
       ["user", "assistant", "user"],
       ["user", "assistant", "user", "assistant", "user"]] := by
  have hts' : ts.isEmpty = false := by
    simp [List.isEmpty_eq_true, hts]
  rw [twoToolRounds_trace model ts mgr q i0 n0 i1 n1 p0 p1 r0 r1 hts' h0 h1 hm0 hm1]
  refine ⟨rfl, rfl, ?_⟩
  simp [userQueryMsg, assistantMsg, toolResultsMsg]

/-- Witness for C9 at the concrete inputs of
`test_message_list_accumulation`. -/
theorem claim_C9_transcript_snapshots_witness :
    (generateResponse cModelAllTools "Compare test1 and test2"
        (some ["search_course_content"]) (some cMgrOk)).1.calls.map
        (fun c => c.messages.length) = [1, 3, 5] ∧
    (generateResponse cModelAllTools "Compare test1 and test2"
        (some ["search_course_content"]) (some cMgrOk)).1.calls.map
        (fun c => c.messages.map Message.role) =
      [["user"],
       ["user", "assistant", "user"],
       ["user", "assistant", "user", "assistant", "user"]] := by
  have h := claim_C9_transcript_snapshots cModelAllTools ["search_course_content"]
    cMgrOk "Compare test1 and test2" "toolu_infinite" "search_course_content"
    "toolu_infinite" "search_course_content" [("query", JsonVal.str "test")]
    [("query", JsonVal.str "test")] "Result" "Result"
    (by decide) rfl rfl rfl rfl
  exact ⟨h.2.1, h.2.2⟩

/-- C10: on the tool-failure path the follow-up model call's result is read
as `final_response.content[0].text` with no guard, so a final response with
an empty content list, or whose first block lacks a string text attribute,
makes `generate_response` raise to its caller (output `none`) instead of
returning a fallback string — while the round-limit path, fed the very same
final response whose first block lacks a text attribute, scans all blocks
and returns the fixed fallback message. -/
theorem claim_C10_unguarded_failure_read :
    (generateResponse cModelFollowEmpty "q" (some ["search_course_content"])
        (some cMgrFail)).2 = none ∧
    (generateResponse cModelAllTools "q" (some ["search_course_content"])
        (some cMgrFail)).2 = none ∧
    (generateResponse cModelAllTools "q" (some ["search_course_content"])
        (some cMgrOk)).2 =
      some "Maximum tool usage rounds reached. Please rephrase your question." :=
  ⟨rfl, rfl, rfl⟩

/-!
Claim theorems about the retrieval/filtering engine (spec-modelled).
-/

/-- C4: when the given course name fails to resolve, `search` returns the
error result `"No course found matching \x27<course_name>\x27"` and performs no
content-collection query; and every exception raised by the underlying
content query is converted into a `"Search error: <message>"` result (with
exactly the one failed query performed) instead of propagating, both
without a course filter and after a successful resolution. -/
theorem claim_C4_search_error_containment :
    (∀ (vs : VectorStore) (q cn : String) (ln : Option Int) (lim : Option Nat),
      vs.resolveCourseName cn = none →
      vs.search q (some cn) ln lim =
        (SearchResults.empty ("No course found matching \x27" ++ cn ++ "\x27"),
         []))
    ∧ (∀ (vs : VectorStore) (q : String) (ln : Option Int) (lim : Option Nat)
        (msg : String),
        vs.contentQuery q (lim.getD vs.max_results) (buildFilter none ln) =
          Except.error msg →
        vs.search q none ln lim =
          (SearchResults.empty ("Search error: " ++ msg),
           [⟨q, lim.getD vs.max_results, buildFilter none ln⟩]))
    ∧ (∀ (vs : VectorStore) (q cn title : String) (ln : Option Int)
        (lim : Option Nat) (msg : String),
        vs.resolveCourseName cn = some title →
        vs.contentQuery q (lim.getD vs.max_results)
            (buildFilter (some title) ln) = Except.error msg →
        vs.search q (some cn) ln lim =
          (SearchResults.empty ("Search error: " ++ msg),
           [⟨q, lim.getD vs.max_results, buildFilter (some title) ln⟩])) := by
  refine ⟨?_, ?_, ?_⟩
  · intro vs q cn ln lim hres
    simp [VectorStore.search, hres]
  · intro vs q ln lim msg hq
    simp [VectorStore.search, VectorStore.runQuery, hq]
  · intro vs q cn title ln lim msg hres hq
    simp [VectorStore.search, VectorStore.runQuery, hres, hq]

/-- Witness for C4 at the concrete inputs of `test_search_with_invalid_course`
and `test_search_exception_handling`. -/
theorem claim_C4_search_error_containment_witness :
    cStoreRaise.search "test" (some "nonexistent") none none =
      (SearchResults.empty "No course found matching \x27nonexistent\x27", []) ∧
    cStoreRaise.search "test" none none none =
      (SearchResults.empty "Search error: Database error",
       [⟨"test", 5, none⟩]) := by
  constructor
  · exact claim_C4_search_error_containment.1 cStoreRaise "test" "nonexistent"
      none none rfl
  · exact claim_C4_search_error_containment.2.1 cStoreRaise "test" none none
      "Database error" rfl

/-- C5: every `SearchResults` the store produces — by the `empty`
constructor, by `from_chroma` on a length-consistent raw result, or as the
result of any `search` over a store whose successful raw queries are
length-consistent — has documents, metadata and distances of equal length,
all zero when an error is set; and for every `SearchResults` value,
`is_empty` holds iff the document sequence has zero length, independent of
the error field. -/
theorem claim_C5_parallel_invariant :
    (∀ msg, (SearchResults.empty msg).Invariant ∧
      (SearchResults.empty msg).documents.length = 0 ∧
      (SearchResults.empty msg).error = some msg)
    ∧ (∀ c : ChromaQueryResult,
        (c.documents.headD []).length = (c.metadatas.headD []).length →
        (c.metadatas.headD []).length = (c.distances.headD []).length →
        (SearchResults.from_chroma c).Invariant)
    ∧ (∀ (vs : VectorStore) (q : String) (cn : Option String) (ln : Option Int)
        (lim : Option Nat),
        (∀ qq n w res, vs.contentQuery qq n w = Except.ok res →
          (res.documents.headD []).length = (res.metadatas.headD []).length ∧
          (res.metadatas.headD []).length = (res.distances.headD []).length) →
        (vs.search q cn ln lim).1.Invariant)
    ∧ (∀ r : SearchResults, r.is_empty = true ↔ r.documents.length = 0) := by
  refine ⟨?_, ?_, ?_, ?_⟩
  · intro msg
    simp [SearchResults.empty, SearchResults.Invariant]
  · intro c h1 h2
    exact ⟨h1, h2, by simp [SearchResults.from_chroma]⟩
  · intro vs q cn ln lim hwf
    have hrun : ∀ (title : Option String),
        (vs.runQuery q title ln lim).1.Invariant := by
      intro title
      rcases h : vs.contentQuery q (lim.getD vs.max_results)
          (buildFilter title ln) with e | res
      · simp [VectorStore.runQuery, h, SearchResults.empty,
          SearchResults.Invariant]
      · have hc := hwf q (lim.getD vs.max_results) (buildFilter title ln) res h
        simp only [VectorStore.runQuery, h, SearchResults.Invariant,
          SearchResults.from_chroma]
        exact ⟨hc.1, hc.2, by simp⟩
    rcases cn with _ | cn
    · simpa [VectorStore.search] using hrun none
    · rcases hres : vs.resolveCourseName cn with _ | title
      · simp [VectorStore.search, hres, SearchResults.empty,
          SearchResults.Invariant]
      · simpa [VectorStore.search, hres] using hrun (some title)
  · intro r
    simp [SearchResults.is_empty]

/-- Witness for C5 at the concrete fixtures of `test_vector_store.py`. -/
theorem claim_C5_parallel_invariant_witness :
    (SearchResults.empty "Test error message").Invariant ∧
    (SearchResults.from_chroma cChroma3).Invariant ∧
    (cStoreRaise.search "test" none none none).1.Invariant ∧
    ((SearchResults.empty "Test error message").is_empty = true ↔
      (SearchResults.empty "Test error message").documents.length = 0) := by
  refine ⟨(claim_C5_parallel_invariant.1 "Test error message").1,
    claim_C5_parallel_invariant.2.1 cChroma3 rfl rfl,
    claim_C5_parallel_invariant.2.2.1 cStoreRaise "test" none none none ?_,
    claim_C5_parallel_invariant.2.2.2 (SearchResults.empty "Test error message")⟩
  intro qq n w res h
  exact absurd h (by simp [cStoreRaise])

/-- C6: `build_filter` returns `None` when both parameters are absent, the
single matching equality predicate when exactly one is present, the
two-clause conjunction when both are present, and no other filter shape is
ever produced. -/
theorem claim_C6_build_filter :
    buildFilter none none = none
    ∧ (∀ t, buildFilter (some t) none =
        some (FilterExpr.clause (FilterClause.course_title t)))
    ∧ (∀ n, buildFilter none (some n) =
        some (FilterExpr.clause (FilterClause.lesson_number n)))
    ∧ (∀ t n, buildFilter (some t) (some n) =
        some (FilterExpr.andList
          [FilterClause.course_title t, FilterClause.lesson_number n]))
    ∧ (∀ (ct : Option String) (ln : Option Int) (f : FilterExpr),
        buildFilter ct ln = some f →
        (∃ t, f = FilterExpr.clause (FilterClause.course_title t)) ∨
        (∃ n, f = FilterExpr.clause (FilterClause.lesson_number n)) ∨
        (∃ t n, f = FilterExpr.andList
          [FilterClause.course_title t, FilterClause.lesson_number n])) := by
  refine ⟨rfl, fun t => rfl, fun n => rfl, fun t n => rfl, ?_⟩
  intro ct ln f h
  rcases ct with _ | t <;> rcases ln with _ | n
  · simp [buildFilter] at h
  · simp [buildFilter] at h
    exact Or.inr (Or.inl ⟨n, h.symm⟩)
  · simp [buildFilter] at h
    exact Or.inl ⟨t, h.symm⟩
  · simp [buildFilter] at h
    exact Or.inr (Or.inr ⟨t, n, h.symm⟩)

/-- Witness for C6 at the concrete inputs of the `test_build_filter_*`
tests. -/
theorem claim_C6_build_filter_witness :
    buildFilter (some "Test Course") (some 1) =
      some (FilterExpr.andList
        [FilterClause.course_title "Test Course", FilterClause.lesson_number 1]) ∧
    ((∃ t, FilterExpr.andList
        [FilterClause.course_title "Test Course", FilterClause.lesson_number 1]
        = FilterExpr.clause (FilterClause.course_title t)) ∨
     (∃ n, FilterExpr.andList
        [FilterClause.course_title "Test Course", FilterClause.lesson_number 1]
        = FilterExpr.clause (FilterClause.lesson_number n)) ∨
     (∃ t n, FilterExpr.andList
        [FilterClause.course_title "Test Course", FilterClause.lesson_number 1]
        = FilterExpr.andList
          [FilterClause.course_title t, FilterClause.lesson_number n])) := by
  refine ⟨claim_C6_build_filter.2.2.2.1 "Test Course" 1, ?_⟩
  exact claim_C6_build_filter.2.2.2.2 (some "Test Course") (some 1) _ rfl

/-- C7: on a non-error, zero-document result the content-search tool returns
exactly `"No relevant content found"` extended by `" in course \x27<name>\x27"`
when a course filter was supplied and `" in lesson <n>"` when a lesson
filter was supplied, in that order, terminated by a period; with
`lesson_number = 5` and no course filter the text is exactly
`"No relevant content found in lesson 5."`. -/
theorem claim_C7_empty_result_message :
    (∀ (store : ToolStore) (ls : List Source) (q : String)
        (cn : Option String) (ln : Option Int),
      (store.searchFn q cn ln).error = none →
      (store.searchFn q cn ln).documents = [] →
      (CourseSearchTool.execute store ls q cn ln).1 =
        "No relevant content found" ++
          (match cn with
            | some c => " in course \x27" ++ c ++ "\x27"
            | none => "") ++
          (match ln with
            | some n => " in lesson " ++ toString n
            | none => "") ++ ".")
    ∧ (∀ (store : ToolStore) (ls : List Source) (q : String),
        (store.searchFn q none (some 5)).error = none →
        (store.searchFn q none (some 5)).documents = [] →
        (CourseSearchTool.execute store ls q none (some 5)).1 =
          "No relevant content found in lesson 5.") := by
  have main : ∀ (store : ToolStore) (ls : List Source) (q : String)
      (cn : Option String) (ln : Option Int),
      (store.searchFn q cn ln).error = none →
      (store.searchFn q cn ln).documents = [] →
      (CourseSearchTool.execute store ls q cn ln).1 =
        emptyMessage cn ln := by
    intro store ls q cn ln herr hdocs
    simp [CourseSearchTool.execute, herr, hdocs]
  constructor
  · intro store ls q cn ln herr hdocs
    rw [main store ls q cn ln herr hdocs]
    rfl
  · intro store ls q herr hdocs
    rw [main store ls q none (some 5) herr hdocs]
    rfl

/-- Witness for C7 at the concrete inputs of the empty-result tests of
`test_search_tools.py`. -/
theorem claim_C7_empty_result_message_witness :
    (CourseSearchTool.execute cStoreEmpty [] "test" none (some 5)).1 =
      "No relevant content found in lesson 5." ∧
    (CourseSearchTool.execute cStoreEmpty [] "test" (some "AI") (some 1)).1 =
      "No relevant content found in course \x27AI\x27 in lesson 1." ∧
    (CourseSearchTool.execute cStoreEmpty [] "nonexistent topic" none none).1 =
      "No relevant content found." := by
  refine ⟨claim_C7_empty_result_message.2 cStoreEmpty [] "test" rfl rfl, ?_, ?_⟩
  · rw [claim_C7_empty_result_message.1 cStoreEmpty [] "test" (some "AI")
      (some 1) rfl rfl]
    rfl
  · rw [claim_C7_empty_result_message.1 cStoreEmpty [] "nonexistent topic"
      none none rfl rfl]
    rfl

/-- C8 counterexample: an execution whose search returns an error (hence
zero returned documents) leaves the previously tracked source list in
place, so after this execution the tracked list is not the empty
one-entry-per-returned-document list the claim requires for every
execution. -/
theorem claim_C8_counterexample :
    (CourseSearchTool.execute cStoreSearchErr cOldSources "q" none none).2 =
      cOldSources ∧
    (cStoreSearchErr.searchFn "q" none none).documents.length = 0 ∧
    cOldSources ≠ [] := by
  refine ⟨rfl, rfl, ?_⟩
  simp [cOldSources]

/-- C8 (amended): after every execution of the content-search tool that
yields a non-error result with at least one document, the tracked source
list is replaced — independently of its previous value — by exactly one
`{text, link}` entry per returned document in result order, with text
`"<course_title> - Lesson <n>"` (just the course title when the document
has no lesson number) and the resolved lesson link (possibly absent);
executions returning an error or zero documents leave the tracked list
unchanged; and the facade's query returns the collected sources alongside
the answer and clears every tool's tracked sources immediately after
retrieval. -/
theorem claim_C8_sources_amended :
    (∀ (store : ToolStore) (ls : List Source) (q : String)
        (cn : Option String) (ln : Option Int),
      (store.searchFn q cn ln).error = none →
      (store.searchFn q cn ln).documents ≠ [] →
      (CourseSearchTool.execute store ls q cn ln).2 =
        ((store.searchFn q cn ln).documents.zip
          (store.searchFn q cn ln).metadata).map (fun p => sourceOf store p.2))
    ∧ (∀ (store : ToolStore) (ls : List Source) (q : String)
        (cn : Option String) (ln : Option Int) (e : String),
        (store.searchFn q cn ln).error = some e →
        (CourseSearchTool.execute store ls q cn ln).2 = ls)
    ∧ (∀ (store : ToolStore) (ls : List Source) (q : String)
        (cn : Option String) (ln : Option Int),
        (store.searchFn q cn ln).error = none →
        (store.searchFn q cn ln).documents = [] →
        (CourseSearchTool.execute store ls q cn ln).2 = ls)
    ∧ (∀ (store : ToolStore) (m : ChunkMetadata) (n : Int),
        m.lesson_number = some n →
        sourceOf store m =
          ⟨m.course_title ++ " - Lesson " ++ toString n,
           store.getLessonLink m.course_title n⟩)
    ∧ (∀ (store : ToolStore) (m : ChunkMetadata),
        m.lesson_number = none → sourceOf store m = ⟨m.course_title, none⟩)
    ∧ (∀ (answer : String) (m : ToolManagerState),
        (ragQuery answer m).1 = (answer, getLastSources m) ∧
        ∀ l ∈ (ragQuery answer m).2.toolSources, l = []) := by
  refine ⟨?_, ?_, ?_, ?_, ?_, ?_⟩
  · intro store ls q cn ln herr hdocs
    have hne : (store.searchFn q cn ln).documents.isEmpty = false := by
      simp [List.isEmpty_eq_true, hdocs]
    simp [CourseSearchTool.execute, herr, hne, formatResults]
  · intro store ls q cn ln e herr
    simp [CourseSearchTool.execute, herr]
  · intro store ls q cn ln herr hdocs
    simp [CourseSearchTool.execute, herr, hdocs]
  · intro store m n h
    simp [sourceOf, h]
  · intro store m h
    simp [sourceOf, h]
  · intro answer m
    refine ⟨rfl, ?_⟩
    intro l hl
    simp only [ragQuery, resetSources, List.mem_map] at hl
    obtain ⟨x, hx1, hx2⟩ := hl
    exact hx2.symm

/-- Witness for the amended C8 at the concrete inputs of
`test_source_tracking_multiple_results`, the error and empty fixtures, and
`test_query_source_extraction`. -/
theorem claim_C8_sources_amended_witness :
    (CourseSearchTool.execute cStoreDocs cOldSources "test" none none).2 =
      [⟨"Course A - Lesson 1", some "http a1"⟩,
       ⟨"Course B - Lesson 2", some "http b2"⟩] ∧
    (CourseSearchTool.execute cStoreSearchErr cOldSources "test" none none).2 =
      cOldSources ∧
    (CourseSearchTool.execute cStoreEmpty cOldSources "test" none none).2 =
      cOldSources ∧
    (ragQuery "Response" ⟨[[⟨"Course 1 - Lesson 1", some "http link1"⟩]]⟩).1 =
      ("Response", [⟨"Course 1 - Lesson 1", some "http link1"⟩]) ∧
    (∀ l ∈ (ragQuery "Response"
        ⟨[[⟨"Course 1 - Lesson 1", some "http link1"⟩]]⟩).2.toolSources,
      l = []) := by
  have h1 := claim_C8_sources_amended.1 cStoreDocs cOldSources "test" none none
    rfl (by simp [cStoreDocs])
  have h2 := claim_C8_sources_amended.2.1 cStoreSearchErr cOldSources "test"
    none none "Search error: Database connection failed" rfl
  have h3 := claim_C8_sources_amended.2.2.1 cStoreEmpty cOldSources "test"
    none none rfl rfl
  have h4 := claim_C8_sources_amended.2.2.2.2.2 "Response"
    ⟨[[⟨"Course 1 - Lesson 1", some "http link1"⟩]]⟩
  refine ⟨?_, h2, h3, h4.1, h4.2⟩
  rw [h1]
  rfl
